import Mathlib

/-!
Verification development for the `node-throttle-agent` repository: a shallow
embedding of the adaptive admission controller (per-endpoint rate limiters,
admission gates, feedback engine, registry cleanup and the transport adapter)
together with theorems settling the spec claims.

Machine numbers of the source are modelled as `ℤ`/`ℕ`/`ℚ` (JS numbers at the
values the program actually uses are exact); the decrease/raise coefficients
are rationals, so `Math.floor(limit * koef)` becomes `⌊(limit : ℚ) * koef⌋`.
The `@druide/rate-limiter` dependency is not part of the sources; its operations
are modelled from the spec and marked as such.
-/

namespace ThrottleAgent

/-- Source constant `MAX_RATE = 1e6` (max possible rate per domain). -/
def MAX_RATE : ℤ := 1000000

/-- Source constant `MIN_RATE = 1` (min rate per domain). -/
def MIN_RATE : ℤ := 1

/-- Source constant `AVG_TIME = 400` (latency threshold for the buffer gate). -/
def AVG_TIME : ℚ := 400

/-- Source constant `CLEANUP_TIME = 60000` (self cleanup time, ms). -/
def CLEANUP_TIME : ℤ := 60000

/-- Per-endpoint limiter state: the token-bucket fields of the
`@druide/rate-limiter` instance (`limit`, `interval`, `curIntervalStart`,
`tokensThisInterval`, `incomingThisInterval`, `averageTime`) together with the
fields the agent attaches after construction (`success`, `failed`, `lastRate`,
`lastRateTime`, `name`, `flag`). -/
structure Limiter where
  limit : ℤ
  interval : ℤ
  curIntervalStart : ℤ
  tokensThisInterval : ℕ
  incomingThisInterval : ℕ
  averageTime : ℚ
  success : ℕ
  failed : ℕ
  lastRate : ℤ
  lastRateTime : ℤ
  name : String
  flag : String
deriving DecidableEq, Repr

/-- Agent configuration: the option fields the admission controller and the
feedback engine read.  `getRate` returns the caller target rate (the source
treats a falsy result — modelled as `0` — as absent and falls back to
`MAX_RATE`); `getFlag` maps a URL to the stat label. -/
structure AgentConfig where
  rateInterval : ℤ
  rateLowerWeight : ℤ
  rateLowerKoef : ℚ
  rateRaiseKoef : ℚ
  maxPending : ℕ
  maxBuffer : ℚ
  checkBeforeRequest : Bool
  getRate : String → String → ℤ
  getFlag : String → String

/-- Modelled from the spec: `RateLimiter.setLimit` of the external
`@druide/rate-limiter` package (not under the sources).  Spec §4.1: "clamps `L`
to `[MIN_RATE, MAX_RATE]` and installs it as the new `limit`". -/
def Limiter.setLimit (l : Limiter) (v : ℤ) : Limiter :=
  { l with limit := max (min v MAX_RATE) MIN_RATE }

/-- Modelled from the spec: `RateLimiter.accept(1)` of the external
`@druide/rate-limiter` package (not under the sources).  Spec §4.1: always
increments `incoming`; if the current interval has elapsed, resets `accepted`,
`incoming` and `intervalStart` first; increments `accepted` by 1 and admits iff
`accepted + 1 ≤ limit`. -/
def Limiter.accept1 (l : Limiter) (now : ℤ) : Bool × Limiter :=
  let l0 := if l.curIntervalStart + l.interval ≤ now then
      { l with tokensThisInterval := 0, incomingThisInterval := 0, curIntervalStart := now }
    else l
  let l1 := { l0 with incomingThisInterval := l0.incomingThisInterval + 1 }
  if (l1.tokensThisInterval : ℤ) + 1 ≤ l1.limit then
    (true, { l1 with tokensThisInterval := l1.tokensThisInterval + 1 })
  else
    (false, l1)

/-- First half of `_changeRate` (source lines 284–289): bump `success` on
direction `1`, `failed` on direction `-1`, nothing otherwise.  `dir` is the
result of the pluggable `getRateDirection` callback. -/
def dirStep (dir : ℤ) (l : Limiter) : Limiter :=
  if dir = 1 then { l with success := l.success + 1 }
  else if dir = -1 then { l with failed := l.failed + 1 }
  else l

/-- Rate recomputation body of `_changeRate` (source lines 291–304), entered
when `lastRateTime + rateInterval ≤ now`: refresh `lastRateTime`, compute
`diff = success - failed * rateLowerWeight`; when `diff ≠ 0` move `limit` by
`max(floor(limit * koef), 1)` in the direction of `diff`, cap at the effective
target rate, raise to at least `MIN_RATE`, and install via `setLimit`; finally
reset `success` and `failed`. -/
def recompute (cfg : AgentConfig) (now : ℤ) (l : Limiter) : Limiter :=
  let rate : ℤ := if cfg.getRate l.name l.flag = 0 then MAX_RATE else cfg.getRate l.name l.flag
  let l1 : Limiter := { l with lastRateTime := now }
  let diff : ℤ := (l1.success : ℤ) - (l1.failed : ℤ) * cfg.rateLowerWeight
  let l2 : Limiter :=
    if diff ≠ 0 then
      let limitDiff : ℤ :=
        max ⌊(l1.limit : ℚ) * (if diff < 0 then cfg.rateLowerKoef else cfg.rateRaiseKoef)⌋ 1
      let lim1 : ℤ := l1.limit + (if 0 < diff then 1 else -1) * limitDiff
      let lim2 : ℤ := if rate < lim1 then rate else lim1
      let lim3 : ℤ := if lim2 < MIN_RATE then MIN_RATE else lim2
      l1.setLimit lim3
    else l1
  { l2 with success := 0, failed := 0 }

/-- Embedding of `_changeRate` (source lines 283–305), parameterized by the
direction `dir` returned by `getRateDirection` for the response code. -/
def changeRate (cfg : AgentConfig) (dir now : ℤ) (l : Limiter) : Limiter :=
  let l1 := dirStep dir l
  if l1.lastRateTime + cfg.rateInterval ≤ now then recompute cfg now l1 else l1

/-- Transport-side socket view: the only field the agent reads per socket. -/
structure Socket where
  bufferSize : ℚ
deriving DecidableEq, Repr

/-- Read-only views the underlying HTTP transport exposes per endpoint name:
`sockets[name]`, `freeSockets[name]`, `requests[name]` (each possibly absent,
as in the JS tables). -/
structure TransportViews where
  sockets : String → Option (List Socket)
  freeSockets : String → Option (List Socket)
  requests : String → Option (List Unit)

/-- Registry of limiters keyed by `name + (flag || '')`, as an association
list. -/
abbrev Registry := List (String × Limiter)

/-- Lookup `this.rateLimiters[key]`. -/
def lookupReg (key : String) (reg : Registry) : Option Limiter :=
  (reg.find? (fun p => p.1 = key)).map Prod.snd

/-- Write back the (in JS, in-place mutated) limiter stored under `key`. -/
def updateReg (key : String) (l : Limiter) (reg : Registry) : Registry :=
  reg.map (fun p => if p.1 = key then (key, l) else p)

/-- Embedding of `_getLimiter` (source lines 260–278): fetch or create the
limiter for `(name, flag)`; the effective rate is `getRate(name, flag) ||
MAX_RATE`; on creation the new `RateLimiter(rate, rateInterval)` is modelled
from the spec (§4.2: `limit = min(callerTargetRate, MAX_RATE)`, counters zero)
and the agent attaches `success = failed = 0`, `lastRate = rate`,
`lastRateTime = now`, `name`, `flag`; on a fetch whose stored `lastRate`
differs from `rate`, `lastRate` is refreshed and
`setLimit(min(limit, rate))` is applied. -/
def getLimiter (cfg : AgentConfig) (reg : Registry) (name flag : String) (now : ℤ) :
    Limiter × Registry :=
  let key := name ++ flag
  let rate : ℤ := if cfg.getRate name flag = 0 then MAX_RATE else cfg.getRate name flag
  match lookupReg key reg with
  | none =>
      let l : Limiter :=
        { limit := min rate MAX_RATE
          interval := cfg.rateInterval
          curIntervalStart := now
          tokensThisInterval := 0
          incomingThisInterval := 0
          averageTime := 0
          success := 0
          failed := 0
          lastRate := rate
          lastRateTime := now
          name := name
          flag := flag }
      (l, (key, l) :: reg)
  | some l =>
      if l.lastRate ≠ rate then
        let l1 := Limiter.setLimit { l with lastRate := rate } (min l.limit rate)
        (l1, updateReg key l1 reg)
      else
        (l, reg)

/-- Counter updates of a pre-emptive rejection (source lines 120–121 and
137–138): `incomingThisInterval++`, and `failed++` iff `withFailed`. -/
def rejectBump (withFailed : Bool) (l : Limiter) : Limiter :=
  { l with incomingThisInterval := l.incomingThisInterval + 1
           failed := if withFailed then l.failed + 1 else l.failed }

/-- Buffer-pressure gate and token-bucket tail of `_canAcceptRequest` (source
lines 125–144): only when the limiter has already admitted a token this
interval and a socket list is present, compare the mean `bufferSize` against
`maxBuffer * 7` (when `averageTime < AVG_TIME`) or `maxBuffer`; reject on
excess, otherwise fall through to `limiter.accept(1)`. -/
def bufferGateAccept (cfg : AgentConfig) (socks : Option (List Socket))
    (withFailed : Bool) (now : ℤ) (l : Limiter) : Bool × Limiter :=
  if l.tokensThisInterval ≠ 0 then
    match socks with
    | some ss =>
        let cap : ℚ := if l.averageTime < AVG_TIME then cfg.maxBuffer * 7 else cfg.maxBuffer
        let bufferSize : ℚ := (ss.map Socket.bufferSize).sum
        let bufferCount : ℕ := ss.length
        if bufferCount ≠ 0 ∧ cap < bufferSize / (bufferCount : ℚ) then
          (false, rejectBump withFailed l)
        else
          l.accept1 now
    | none => l.accept1 now
  else
    l.accept1 now

/-- Gate logic of `_canAcceptRequest` on an already-fetched limiter (source
lines 116–144): the queue-depth gate (`requests[name].length ≥ maxPending`)
first, then the buffer gate and the token bucket. -/
def canAcceptCore (cfg : AgentConfig) (pend : Option (List Unit))
    (socks : Option (List Socket)) (withFailed : Bool) (now : ℤ) (l : Limiter) :
    Bool × Limiter :=
  let fires : Bool :=
    match pend with
    | some ps => decide (cfg.maxPending ≤ ps.length)
    | none => false
  if fires then (false, rejectBump withFailed l)
  else bufferGateAccept cfg socks withFailed now l

/-- Embedding of `_canAcceptRequest` (source lines 113–145): fetch the limiter
via the registry, run the gates, and write the mutated limiter back. -/
def canAcceptRequestInternal (cfg : AgentConfig) (views : TransportViews)
    (reg : Registry) (name flag : String) (withFailed : Bool) (now : ℤ) :
    Bool × Registry :=
  let fetched := getLimiter cfg reg name flag now
  let res := canAcceptCore cfg (views.requests name) (views.sockets name)
    withFailed now fetched.1
  (res.1, updateReg (name ++ flag) res.2 fetched.2)

/-- Parse result of node's `Url.parse` restricted to the fields
`canAcceptRequest` reads: `protocol`, `hostname`, and `port` (which node fills
only when the URL carries an explicit port; otherwise it is `null`, here
`none`). -/
structure ParsedUrl where
  protocol : String
  hostname : String
  port : Option String
deriving DecidableEq, Repr

/-- Endpoint key derivation of `canAcceptRequest` (source line 105):
`hostname + ':' + (port || 80) + ':'`. -/
def deriveName (u : ParsedUrl) : String :=
  u.hostname ++ ":" ++
    (match u.port with
     | some p => if p = "" then "80" else p
     | none => "80") ++ ":"

/-- Embedding of `canAcceptRequest` (source lines 102–108): `true` without any
work unless `checkBeforeRequest` is set; otherwise the internal check under the
derived key with `withFailed = true`.  `u` is the parse result for `url`. -/
def canAcceptRequest (cfg : AgentConfig) (views : TransportViews) (reg : Registry)
    (u : ParsedUrl) (url : String) (now : ℤ) : Bool × Registry :=
  if !cfg.checkBeforeRequest then (true, reg)
  else canAcceptRequestInternal cfg views reg (deriveName u) (cfg.getFlag url) true now

/-- Observable actions of the transport adapter's `addRequest`. -/
inductive AdapterAction where
  | abort
  | emitError (msg : String) (code : ℤ)
  | forward
deriving DecidableEq, Repr

/-- Embedding of the submission path of `addRequest` (source lines 152–198),
with the per-request event handlers modelled separately (`onRequestEvent`).
`errorListeners` is the request's error-subscriber list (absent when nobody
subscribed).  In on-submit mode a failed check aborts the request, emits the
synthetic 429 error when subscribers exist, and returns without forwarding;
otherwise the limiter is (re)fetched and the request is forwarded to the
underlying transport. -/
def addRequest (cfg : AgentConfig) (views : TransportViews) (reg : Registry)
    (name flag : String) (errorListeners : Option (List Unit)) (now : ℤ) :
    List AdapterAction × Registry :=
  if !cfg.checkBeforeRequest then
    let checked := canAcceptRequestInternal cfg views reg name flag false now
    if !checked.1 then
      (AdapterAction.abort ::
        (match errorListeners with
         | some ls => if ls.length ≠ 0 then [AdapterAction.emitError "429 Too Many Requests" 429] else []
         | none => []),
       checked.2)
    else
      let fetched := getLimiter cfg checked.2 name flag now
      ([AdapterAction.forward], fetched.2)
  else
    let fetched := getLimiter cfg reg name flag now
    ([AdapterAction.forward], fetched.2)

/-- Response code values a request outcome can carry (`response.statusCode` is
a number; `err.code` may be a number, a string such as `"ETIMEDOUT"`, or
absent). -/
inductive RespCode where
  | num (n : ℤ)
  | str (s : String)
  | undef
deriving DecidableEq, Repr

/-- Terminal events of a request, as delivered by the transport. -/
inductive Outcome where
  | response (statusCode : ℤ)
  | error (code : RespCode)
  | abort
deriving DecidableEq, Repr

/-- Effects of the per-request handlers `addRequest` subscribes. -/
inductive HandlerEffect where
  | clearAgentTimeout
  | addTime
  | feedback (code : RespCode)
  | destroySocket
deriving DecidableEq, Repr

/-- Embedding of the event handlers registered by `addRequest` (source lines
179–190): `response` clears the agent timeout, folds in the elapsed time and
calls `_changeRate` with the status code; `error` does the same with the error
code; `abort` only clears the timeout and destroys the socket when one is
attached. -/
def onRequestEvent (hasSocket : Bool) : Outcome → List HandlerEffect
  | Outcome.response c => [HandlerEffect.clearAgentTimeout, HandlerEffect.addTime,
      HandlerEffect.feedback (RespCode.num c)]
  | Outcome.error e => [HandlerEffect.clearAgentTimeout, HandlerEffect.addTime,
      HandlerEffect.feedback e]
  | Outcome.abort => HandlerEffect.clearAgentTimeout ::
      (if hasSocket then [HandlerEffect.destroySocket] else [])

/-- Arguments of the `_changeRate` calls made while processing a list of
request events. -/
def feedbackCalls (hasSocket : Bool) (evs : List Outcome) : List RespCode :=
  ((evs.map (onRequestEvent hasSocket)).flatten).filterMap
    (fun eff => match eff with
      | HandlerEffect.feedback c => some c
      | _ => none)

/-- Emptiness test the cleanup uses on a transport table entry:
`!table[name] || !table[name].length`. -/
def emptyView {α : Type} : Option (List α) → Bool
  | none => true
  | some l => l.isEmpty

/-- Removal condition of `_cleanup` (source lines 314–317). -/
def removable (views : TransportViews) (now : ℤ) (l : Limiter) : Bool :=
  decide (l.curIntervalStart + CLEANUP_TIME < now) &&
  emptyView (views.sockets l.name) &&
  emptyView (views.freeSockets l.name) &&
  emptyView (views.requests l.name)

/-- Embedding of `_cleanup` (source lines 310–321): delete every registry entry
satisfying the removal condition. -/
def cleanup (views : TransportViews) (now : ℤ) (reg : Registry) : Registry :=
  reg.filter (fun p => !removable views now p.2)

/-! Concrete fixtures used by the witnesses: configurations, limiters and
transport views at the values of the spec scenarios. -/

/-- Default configuration (source constructor defaults, with `getRate` absent:
it then returns the default `rate`, itself defaulting to `MAX_RATE`; a falsy
result is modelled as `0`). -/
def cfgDefault : AgentConfig :=
  { rateInterval := 1000, rateLowerWeight := 18, rateLowerKoef := 1/5,
    rateRaiseKoef := 1/50, maxPending := 3000, maxBuffer := 50,
    checkBeforeRequest := false, getRate := fun _ _ => 0, getFlag := fun _ => "" }

/-- Default configuration with `maxPending = 3` (spec scenario S3). -/
def cfgSmall : AgentConfig :=
  { cfgDefault with maxPending := 3 }

/-- Default configuration in pre-check mode (`checkBeforeRequest = true`). -/
def cfgPre : AgentConfig :=
  { cfgDefault with checkBeforeRequest := true }

/-- Default configuration whose `getRate` returns 50 (spec scenario S6). -/
def cfgRate50 : AgentConfig :=
  { cfgDefault with getRate := fun _ _ => 50 }

/-- Limiter of spec scenario S2: `limit = 100`, tallies 10 successes and 5
failures, at a rate-adjustment boundary. -/
def limiterS2 : Limiter :=
  { limit := 100, interval := 1000, curIntervalStart := 0, tokensThisInterval := 0,
    incomingThisInterval := 0, averageTime := 0, success := 10, failed := 5,
    lastRate := 100, lastRateTime := 0, name := "h:80:", flag := "" }

/-- Limiter actively serving this interval (one admitted token, low latency). -/
def limiterBusy : Limiter :=
  { limiterS2 with tokensThisInterval := 1, averageTime := 200, success := 0, failed := 0 }

/-- Limiter of spec scenario S6: working `limit = 80` under `lastRate = 100`. -/
def limiterS6 : Limiter :=
  { limiterS2 with limit := 80, success := 0, failed := 0 }

/-- Transport views with three pending requests for every name and no
sockets. -/
def viewsQueue : TransportViews :=
  { sockets := fun _ => none, freeSockets := fun _ => none,
    requests := fun _ => some [(), (), ()] }

/-- Transport views with every table empty. -/
def viewsIdle : TransportViews :=
  { sockets := fun _ => none, freeSockets := fun _ => none, requests := fun _ => none }

/-! Claim theorems. -/

/-- Core computation of the rate recomputation: at a boundary with nonzero
`diff` and an effective target within `MAX_RATE`, the new limit is the old one
moved by `max(floor(limit * koef), 1)` in the direction of `diff`, clamped to
at most the target and at least `MIN_RATE`. -/
theorem changeRate_boundary_limit (cfg : AgentConfig) (dir now : ℤ) (l : Limiter)
    (hb : (dirStep dir l).lastRateTime + cfg.rateInterval ≤ now)
    (hdiff : ((dirStep dir l).success : ℤ) - ((dirStep dir l).failed : ℤ) * cfg.rateLowerWeight ≠ 0)
    (hrate : (if cfg.getRate l.name l.flag = 0 then MAX_RATE else cfg.getRate l.name l.flag) ≤ MAX_RATE) :
    (changeRate cfg dir now l).limit =
      max (min ((dirStep dir l).limit +
          (if 0 < ((dirStep dir l).success : ℤ) - ((dirStep dir l).failed : ℤ) * cfg.rateLowerWeight
           then 1 else -1) *
          max ⌊((dirStep dir l).limit : ℚ) *
            (if ((dirStep dir l).success : ℤ) - ((dirStep dir l).failed : ℤ) * cfg.rateLowerWeight < 0
             then cfg.rateLowerKoef else cfg.rateRaiseKoef)⌋ 1)
        (if cfg.getRate l.name l.flag = 0 then MAX_RATE else cfg.getRate l.name l.flag)) MIN_RATE := by
  set l1 := dirStep dir l with hl1
  have hname : l1.name = l.name := by
    simp only [hl1, dirStep]; split_ifs <;> rfl
  have hflag : l1.flag = l.flag := by
    simp only [hl1, dirStep]; split_ifs <;> rfl
  simp only [changeRate, ← hl1, if_pos hb, recompute, hname, hflag, Limiter.setLimit]
  rw [if_pos (by simpa using hdiff)]
  simp only []
  generalize ⌊(l1.limit : ℚ) * _⌋ = F
  simp only [MAX_RATE, MIN_RATE] at *
  split_ifs at * <;> omega

/-- Spec scenario S2 evaluated: 10 successes, 5 failures, weight 18 and
decrease coefficient 0.2 collapse a limit of 100 to 80. -/
theorem changeRate_collapse_s2 : (changeRate cfgDefault 0 1000 limiterS2).limit = 80 := by
  rw [changeRate_boundary_limit cfgDefault 0 1000 limiterS2 (by decide) (by decide) (by decide)]
  have h20 : ⌊((dirStep 0 limiterS2).limit : ℚ) *
      (if ((dirStep 0 limiterS2).success : ℤ) - ((dirStep 0 limiterS2).failed : ℤ) * cfgDefault.rateLowerWeight < 0
       then cfgDefault.rateLowerKoef else cfgDefault.rateRaiseKoef)⌋ = 20 := by
    norm_num [dirStep, limiterS2, cfgDefault, Rat.floor_def']
  rw [h20]
  norm_num [dirStep, limiterS2, cfgDefault, MIN_RATE, MAX_RATE]

/-- C1: at a rate-adjustment boundary with tallies `s` and `f` and
`diff = s - f * rateLowerWeight ≠ 0`, the new limit is
`limit + sign(diff) * max(floor(limit * (rateLowerKoef if diff < 0 else
rateRaiseKoef)), 1)`, clamped to at most the effective target
`getRate(name, flag) || MAX_RATE` and at least `MIN_RATE`; in particular a
limit of 100 with 10 successes, 5 failures, weight 18 and decrease coefficient
0.2 becomes 80.  (Stated for targets within `MAX_RATE`, where the
spec-modelled `setLimit` clamp is inactive.) -/
theorem claim_C1_rate_recomputation (cfg : AgentConfig) (dir now : ℤ) (l : Limiter)
    (hb : (dirStep dir l).lastRateTime + cfg.rateInterval ≤ now)
    (hdiff : ((dirStep dir l).success : ℤ) - ((dirStep dir l).failed : ℤ) * cfg.rateLowerWeight ≠ 0)
    (hrate : (if cfg.getRate l.name l.flag = 0 then MAX_RATE else cfg.getRate l.name l.flag) ≤ MAX_RATE) :
    (changeRate cfg dir now l).limit =
      max (min ((dirStep dir l).limit +
          (if 0 < ((dirStep dir l).success : ℤ) - ((dirStep dir l).failed : ℤ) * cfg.rateLowerWeight
           then 1 else -1) *
          max ⌊((dirStep dir l).limit : ℚ) *
            (if ((dirStep dir l).success : ℤ) - ((dirStep dir l).failed : ℤ) * cfg.rateLowerWeight < 0
             then cfg.rateLowerKoef else cfg.rateRaiseKoef)⌋ 1)
        (if cfg.getRate l.name l.flag = 0 then MAX_RATE else cfg.getRate l.name l.flag)) MIN_RATE ∧
    (changeRate cfgDefault 0 1000 limiterS2).limit = 80 :=
  ⟨changeRate_boundary_limit cfg dir now l hb hdiff hrate, changeRate_collapse_s2⟩

/-- Witness for C1 at the spec's S2 input. -/
theorem claim_C1_witness : (changeRate cfgDefault 0 1000 limiterS2).limit = 80 :=
  (claim_C1_rate_recomputation cfgDefault 0 1000 limiterS2 (by decide) (by decide) (by decide)).2

/-- C8: at every rate-adjustment boundary the `success` and `failed` tallies
are reset to zero and `lastRateTime` is set to `now`, whatever `diff` is; and
when `diff = 0` the limit is left unchanged. -/
theorem claim_C8_boundary_reset (cfg : AgentConfig) (dir now : ℤ) (l : Limiter)
    (hb : (dirStep dir l).lastRateTime + cfg.rateInterval ≤ now) :
    (changeRate cfg dir now l).success = 0 ∧
    (changeRate cfg dir now l).failed = 0 ∧
    (changeRate cfg dir now l).lastRateTime = now ∧
    (((dirStep dir l).success : ℤ) - ((dirStep dir l).failed : ℤ) * cfg.rateLowerWeight = 0 →
      (changeRate cfg dir now l).limit = l.limit) := by
  have hlim : (dirStep dir l).limit = l.limit := by
    simp only [dirStep]; split_ifs <;> rfl
  simp only [changeRate, if_pos hb, recompute, Limiter.setLimit]
  refine ⟨?_, ?_, ?_, ?_⟩
  · trivial
  · trivial
  · first | trivial | (split_ifs <;> rfl)
  · intro h0
    rw [if_neg (by simpa using h0)]
    simpa using hlim

/-- Witness for C8 at the S2 input. -/
theorem claim_C8_witness : (changeRate cfgDefault 0 1000 limiterS2).success = 0 ∧
    (changeRate cfgDefault 0 1000 limiterS2).failed = 0 ∧
    (changeRate cfgDefault 0 1000 limiterS2).lastRateTime = 1000 :=
  let h := claim_C8_boundary_reset cfgDefault 0 1000 limiterS2 (by decide)
  ⟨h.1, h.2.1, h.2.2.1⟩

/-- C2 counterexample: on an `abort` event the registered handlers make no
`_changeRate` call at all — not one call with `undefined` as the claim
states. -/
theorem claim_C2_counterexample :
    feedbackCalls false [Outcome.abort] ≠ [RespCode.undef] ∧
    (feedbackCalls false [Outcome.abort]).length = 0 := by decide

/-- C2 (amended): `_changeRate` is invoked once with the status code on a
`response` event and once with the error code on an `error` event, but not at
all on an `abort` event; a timeout abort delivered as `abort` followed by
`error` hence notifies feedback exactly once, through the error handler. -/
theorem claim_C2_feedback_per_event (hs : Bool) (c : ℤ) (e : RespCode) :
    feedbackCalls hs [Outcome.response c] = [RespCode.num c] ∧
    feedbackCalls hs [Outcome.error e] = [e] ∧
    feedbackCalls hs [Outcome.abort] = [] ∧
    feedbackCalls hs [Outcome.abort, Outcome.error e] = [e] := by
  cases hs <;> simp [feedbackCalls, onRequestEvent]

/-- C3: with at least `maxPending` pending requests for the name, the check
returns `false`, increments `incomingThisInterval`, increments `failed` iff
`withFailed`, and leaves `tokensThisInterval` (accepted) untouched; with
`maxPending - 1` pending requests the queue gate does not fire and the check
is decided by the remaining gates. -/
theorem claim_C3_queue_gate (cfg : AgentConfig) (socks : Option (List Socket))
    (wf : Bool) (now : ℤ) (l : Limiter) (pend pendOk : List Unit)
    (h : cfg.maxPending ≤ pend.length) (h2 : pendOk.length + 1 = cfg.maxPending) :
    canAcceptCore cfg (some pend) socks wf now l = (false, rejectBump wf l) ∧
    (rejectBump wf l).incomingThisInterval = l.incomingThisInterval + 1 ∧
    (rejectBump wf l).failed = (if wf then l.failed + 1 else l.failed) ∧
    (rejectBump wf l).tokensThisInterval = l.tokensThisInterval ∧
    canAcceptCore cfg (some pendOk) socks wf now l = bufferGateAccept cfg socks wf now l := by
  refine ⟨?_, rfl, rfl, rfl, ?_⟩
  · simp only [canAcceptCore]
    rw [if_pos (by simpa using h)]
  · simp only [canAcceptCore]
    rw [if_neg (by simp; omega)]

/-- Witness for C3 at spec scenario S3 (`maxPending = 3`, three pending). -/
theorem claim_C3_witness :
    canAcceptCore cfgSmall (some [(), (), ()]) none false 0 limiterS2 =
      (false, rejectBump false limiterS2) :=
  (claim_C3_queue_gate cfgSmall none false 0 limiterS2 [(), (), ()] [(), ()]
    (by decide) (by decide)).1

/-- C4: the buffer-pressure gate runs only when the limiter has already
admitted a token this interval and a socket list is present; it then rejects —
with the same counter updates as the queue gate — iff the mean socket
`bufferSize` exceeds `maxBuffer * 7` when `averageTime < AVG_TIME` and
`maxBuffer` otherwise, and otherwise the decision falls to the token
bucket. -/
theorem claim_C4_buffer_gate (cfg : AgentConfig) (wf : Bool) (now : ℤ)
    (l lCold : Limiter) (socks : List Socket) (sAny : Option (List Socket))
    (hTok : l.tokensThisInterval ≠ 0) (hNe : socks ≠ [])
    (hCold : lCold.tokensThisInterval = 0) :
    bufferGateAccept cfg (some socks) wf now l =
      (if (if l.averageTime < AVG_TIME then cfg.maxBuffer * 7 else cfg.maxBuffer) <
          (socks.map Socket.bufferSize).sum / (socks.length : ℚ)
       then (false, rejectBump wf l)
       else l.accept1 now) ∧
    bufferGateAccept cfg sAny wf now lCold = lCold.accept1 now ∧
    bufferGateAccept cfg none wf now l = l.accept1 now := by
  refine ⟨?_, ?_, ?_⟩
  · simp only [bufferGateAccept, if_pos hTok]
    have hlen : socks.length ≠ 0 := by simpa using hNe
    simp [hlen]
  · simp [bufferGateAccept, hCold]
  · simp only [bufferGateAccept, if_pos hTok]

/-- Witness for C4 at spec scenario S4 (one admitted token, one socket with
buffer 300, `averageTime = 200`). -/
theorem claim_C4_witness :
    bufferGateAccept cfgDefault (some [Socket.mk 300]) true 0 limiterBusy =
      (if (if limiterBusy.averageTime < AVG_TIME then cfgDefault.maxBuffer * 7 else cfgDefault.maxBuffer) <
          ([Socket.mk 300].map Socket.bufferSize).sum / (([Socket.mk 300] : List Socket).length : ℚ)
       then (false, rejectBump true limiterBusy)
       else limiterBusy.accept1 0) :=
  (claim_C4_buffer_gate cfgDefault true 0 limiterBusy limiterS2 [Socket.mk 300] none
    (by decide) (by decide) (by decide)).1

/-- C5: fetching an existing limiter whose stored `lastRate` differs from the
caller target rate `r` (within `[MIN_RATE, MAX_RATE]`) sets `lastRate := r`
and the working limit to `min(previous limit, r)`; hence a lowered target is
applied immediately, a raised target never increases the working limit, and
the limit never exceeds the most recently observed target. -/
theorem claim_C5_target_rate (cfg : AgentConfig) (reg : Registry) (name flag : String)
    (now r : ℤ) (l : Limiter)
    (hfound : lookupReg (name ++ flag) reg = some l)
    (hr : cfg.getRate name flag = r)
    (hrMin : MIN_RATE ≤ r) (hrMax : r ≤ MAX_RATE)
    (hlim : MIN_RATE ≤ l.limit)
    (hneq : l.lastRate ≠ r) :
    (getLimiter cfg reg name flag now).1.lastRate = r ∧
    (getLimiter cfg reg name flag now).1.limit = min l.limit r ∧
    (getLimiter cfg reg name flag now).1.limit ≤ r ∧
    (getLimiter cfg reg name flag now).1.limit ≤ l.limit := by
  have hr0 : ¬ r = 0 := by simp only [MIN_RATE] at hrMin; omega
  have hrate : (if cfg.getRate name flag = 0 then MAX_RATE else cfg.getRate name flag) = r := by
    rw [hr, if_neg hr0]
  simp only [getLimiter, hrate, hfound, if_pos hneq, Limiter.setLimit]
  simp only [MIN_RATE, MAX_RATE] at *
  refine ⟨?_, ?_, ?_, ?_⟩ <;> first | trivial | omega

/-- Witness for C5 at spec scenario S6 (`limit = 80`, `lastRate = 100`, new
target 50). -/
theorem claim_C5_witness :
    (getLimiter cfgRate50 [("h:80:", limiterS6)] "h:80:" "" 0).1.lastRate = 50 ∧
    (getLimiter cfgRate50 [("h:80:", limiterS6)] "h:80:" "" 0).1.limit = min limiterS6.limit 50 :=
  let h := claim_C5_target_rate cfgRate50 [("h:80:", limiterS6)] "h:80:" "" 0 50 limiterS6
    (by decide) (by decide) (by decide) (by decide) (by decide) (by decide)
  ⟨h.1, h.2.1⟩

/-- C6: the cleanup sweep removes a registry entry iff its current-interval
start lies more than `CLEANUP_TIME` before `now` and the transport holds no
sockets, free sockets, or pending requests for its name; consequently an entry
whose name has any socket, free socket, or pending request is never
removed. -/
theorem claim_C6_cleanup (views : TransportViews) (now : ℤ) (reg : Registry)
    (k : String) (l : Limiter) (hmem : (k, l) ∈ reg) :
    ((k, l) ∉ cleanup views now reg ↔
      (l.curIntervalStart + CLEANUP_TIME < now ∧
       emptyView (views.sockets l.name) = true ∧
       emptyView (views.freeSockets l.name) = true ∧
       emptyView (views.requests l.name) = true)) ∧
    ((emptyView (views.sockets l.name) = false ∨
      emptyView (views.freeSockets l.name) = false ∨
      emptyView (views.requests l.name) = false) →
      (k, l) ∈ cleanup views now reg) := by
  have hiff : (k, l) ∈ cleanup views now reg ↔ ¬ removable views now l = true := by
    simp [cleanup, List.mem_filter, hmem]
  have hrem : removable views now l = true ↔
      (l.curIntervalStart + CLEANUP_TIME < now ∧
       emptyView (views.sockets l.name) = true ∧
       emptyView (views.freeSockets l.name) = true ∧
       emptyView (views.requests l.name) = true) := by
    simp [removable, and_assoc]
  constructor
  · rw [← hrem]
    constructor
    · intro hnot
      by_contra hfalse
      exact hnot (hiff.mpr (by simp [hfalse]))
    · intro hr hin
      exact (hiff.mp hin) hr
  · intro hcase
    refine hiff.mpr ?_
    rw [hrem]
    rcases hcase with h | h | h <;> simp [h]

/-- Witness for C6: an idle-transport entry past the cleanup horizon is
removed. -/
theorem claim_C6_witness :
    ("h:80:", limiterS2) ∉ cleanup viewsIdle 100000 [("h:80:", limiterS2)] ↔
      (limiterS2.curIntervalStart + CLEANUP_TIME < 100000 ∧
       emptyView (viewsIdle.sockets limiterS2.name) = true ∧
       emptyView (viewsIdle.freeSockets limiterS2.name) = true ∧
       emptyView (viewsIdle.requests limiterS2.name) = true) :=
  (claim_C6_cleanup viewsIdle 100000 [("h:80:", limiterS2)] "h:80:" limiterS2 (by decide)).1

/-- C7: in the on-submit path (`checkBeforeRequest = false`) a rejected
request is aborted and not forwarded to the underlying transport, and the
synthetic error with message `"429 Too Many Requests"` and integer code `429`
is emitted iff the request has at least one error subscriber. -/
theorem claim_C7_submit_rejection (cfg : AgentConfig) (views : TransportViews)
    (reg : Registry) (name flag : String) (els : Option (List Unit)) (now : ℤ)
    (hMode : cfg.checkBeforeRequest = false)
    (hRej : (canAcceptRequestInternal cfg views reg name flag false now).1 = false) :
    (addRequest cfg views reg name flag els now).1 =
      AdapterAction.abort ::
        (match els with
         | some ls => if ls.length ≠ 0 then [AdapterAction.emitError "429 Too Many Requests" 429] else []
         | none => []) ∧
    AdapterAction.forward ∉ (addRequest cfg views reg name flag els now).1 ∧
    (AdapterAction.emitError "429 Too Many Requests" 429 ∈ (addRequest cfg views reg name flag els now).1 ↔
      ∃ ls, els = some ls ∧ ls ≠ []) := by
  have h1 : (addRequest cfg views reg name flag els now).1 =
      AdapterAction.abort ::
        (match els with
         | some ls => if ls.length ≠ 0 then [AdapterAction.emitError "429 Too Many Requests" 429] else []
         | none => []) := by
    simp only [addRequest, hMode, Bool.not_false, if_pos, hRej]
  refine ⟨h1, ?_, ?_⟩
  · rw [h1]
    cases els with
    | none => simp
    | some ls => by_cases h : ls.length = 0 <;> simp [h]
  · rw [h1]
    cases els with
    | none => simp
    | some ls =>
        rcases eq_or_ne ls [] with h | h
        · subst h; simp
        · simp [h, List.length_eq_zero]

/-- Witness for C7: a queue-gate rejection with one error subscriber aborts,
emits the 429 error, and does not forward. -/
theorem claim_C7_witness :
    AdapterAction.forward ∉ (addRequest cfgSmall viewsQueue [] "h:80:" "" (some [()]) 0).1 :=
  (claim_C7_submit_rejection cfgSmall viewsQueue [] "h:80:" "" (some [()]) 0
    (by decide) (by decide)).2.1

/-- C9: a falsy (`0`) result of the `getRate` callback is replaced by
`MAX_RATE` both when creating a limiter and when recomputing the rate: the
agent behaves exactly as if `getRate` had returned `MAX_RATE`, and a freshly
created limiter for a zero-target endpoint starts with `lastRate = limit =
MAX_RATE` rather than 0. -/
theorem claim_C9_falsy_rate (cfg : AgentConfig) (reg : Registry) (name flag : String)
    (dir now : ℤ) (l : Limiter) :
    getLimiter { cfg with getRate := fun _ _ => 0 } reg name flag now =
      getLimiter { cfg with getRate := fun _ _ => MAX_RATE } reg name flag now ∧
    changeRate { cfg with getRate := fun _ _ => 0 } dir now l =
      changeRate { cfg with getRate := fun _ _ => MAX_RATE } dir now l ∧
    (lookupReg (name ++ flag) reg = none →
      (getLimiter { cfg with getRate := fun _ _ => 0 } reg name flag now).1.lastRate = MAX_RATE ∧
      (getLimiter { cfg with getRate := fun _ _ => 0 } reg name flag now).1.limit = MAX_RATE) := by
  have hmax : ¬ MAX_RATE = (0 : ℤ) := by simp [MAX_RATE]
  refine ⟨?_, ?_, ?_⟩
  · simp [getLimiter, hmax]
  · simp [changeRate, recompute, hmax]
  · intro hnone
    simp [getLimiter, hnone, hmax]

/-- Witness for C9: creation under a zero target yields the `MAX_RATE` cap. -/
theorem claim_C9_witness :
    (getLimiter { cfgDefault with getRate := fun _ _ => 0 } [] "h:80:" "" 0).1.lastRate = MAX_RATE ∧
    (getLimiter { cfgDefault with getRate := fun _ _ => 0 } [] "h:80:" "" 0).1.limit = MAX_RATE :=
  (claim_C9_falsy_rate cfgDefault [] "h:80:" "" 0 0 limiterS2).2.2 (by decide)

/-- C10: the pre-check derives the endpoint key as
`hostname + ':' + (port || 80) + ':'` — independent of the URL scheme — so a
URL without an explicit port, an https URL included, is checked under the
`host:80:` key. -/
theorem claim_C10_default_port (host : String) (port : Option String) (p1 p2 : String)
    (cfg : AgentConfig) (views : TransportViews) (reg : Registry) (url : String) (now : ℤ)
    (hMode : cfg.checkBeforeRequest = true) :
    deriveName ⟨p1, host, port⟩ = deriveName ⟨p2, host, port⟩ ∧
    deriveName ⟨p1, host, none⟩ = host ++ ":80:" ∧
    canAcceptRequest cfg views reg ⟨p1, host, none⟩ url now =
      canAcceptRequestInternal cfg views reg (host ++ ":80:") (cfg.getFlag url) true now := by
  have hd : deriveName ⟨p1, host, none⟩ = host ++ ":80:" := by
    show host ++ ":" ++ "80" ++ ":" = host ++ ":80:"
    rw [String.append_assoc, String.append_assoc]
    rfl
  refine ⟨rfl, hd, ?_⟩
  simp [canAcceptRequest, hMode, hd]

/-- Witness for C10: an https URL with no explicit port is keyed
`example.com:80:`. -/
theorem claim_C10_witness :
    deriveName ⟨"https:", "example.com", none⟩ = "example.com" ++ ":80:" :=
  (claim_C10_default_port "example.com" none "https:" "http:" cfgPre viewsIdle [] "u" 0
    (by decide)).2.1

end ThrottleAgent
